import Mathlib

/-!
Verification of the NEO close-approach project (models.py, extract.py,
write.py) against its natural-language specification.

The Python code is shallowly embedded:
- Python floats become the tagged type PyFloat (a rational number, NaN, or
  a signed infinity), with a model of the builtin float(str) parser and of
  str(float) rendering.
- Python datetime objects become the record PyDateTime; a model of
  str(datetime) ("YYYY-MM-DD HH:MM:SS") is given for no-microsecond values.
- The keyword-argument bags taken by the constructors become records of
  Option String fields (None for a missing key or a Python None value).
- Fallible Python code (constructors that may raise ValueError from float(),
  attribute access on None) returns Except String.

The helper module (cd_to_datetime, datetime_to_str) is not part of the
three source files; those two functions are modelled from the spec, as
noted in their doc comments.
-/

set_option autoImplicit false

/-- Model of a Python float value: NaN, a signed infinity, or a finite
value represented exactly as a rational number. -/
inductive PyFloat where
  | nan
  | inf
  | ninf
  | num (q : Rat)
deriving DecidableEq, Repr

/-- Numeric value of a list of decimal digit characters. -/
def digitsVal (cs : List Char) : Nat :=
  cs.foldl (fun n c => 10 * n + (c.toNat - 48)) 0

/-- Split a character list at every occurrence of the separator (the
structural analogue of splitting a string on a one-character separator). -/
def splitOnChar (c : Char) : List Char → List (List Char)
  | [] => [[]]
  | x :: xs =>
    match splitOnChar c xs, decide (x = c) with
    | rest, true => [] :: rest
    | r :: rs, false => (x :: r) :: rs
    | [], false => [[x]]

/-- ASCII lowercasing of a character list. -/
def toLowerChars (cs : List Char) : List Char :=
  cs.map (fun c => if 'A' ≤ c ∧ c ≤ 'Z' then Char.ofNat (c.toNat + 32) else c)

/-- Parse the mantissa part of a Python float literal: digits with at most
one decimal point, at least one digit overall (".5" and "5." are legal). -/
def parseMantissa (cs : List Char) : Option Rat :=
  match splitOnChar '.' cs with
  | [a] =>
    if a ≠ [] ∧ a.all Char.isDigit then
      some ((digitsVal a : Nat) : Rat)
    else none
  | [a, b] =>
    if (a ++ b) ≠ [] ∧ (a ++ b).all Char.isDigit then
      some (((digitsVal (a ++ b) : Nat) : Rat) / (10 : Rat) ^ b.length)
    else none
  | _ => none

/-- Parse the exponent part of a Python float literal: optional sign then
at least one digit. -/
def parseExp (cs : List Char) : Option Int :=
  match cs with
  | '+' :: r =>
    if r ≠ [] ∧ r.all Char.isDigit then some (digitsVal r : Int) else none
  | '-' :: r =>
    if r ≠ [] ∧ r.all Char.isDigit then some (-(digitsVal r : Int)) else none
  | r =>
    if r ≠ [] ∧ r.all Char.isDigit then some (digitsVal r : Int) else none

/-- Negate a Python float value. -/
def negFloat : PyFloat → PyFloat
  | .nan => .nan
  | .inf => .ninf
  | .ninf => .inf
  | .num q => .num (-q)

/-- Parse an unsigned Python float literal: "nan", "inf"/"infinity"
(case-insensitive), or mantissa with optional exponent. -/
def parseUnsignedFloat (cs : List Char) : Option PyFloat :=
  let low := toLowerChars cs
  if low = "nan".toList then some .nan
  else if low = "inf".toList ∨ low = "infinity".toList then some .inf
  else
    match splitOnChar 'e' low with
    | [m] => (parseMantissa m).map .num
    | [m, ex] =>
      match parseMantissa m, parseExp ex with
      | some mv, some ev => some (.num (mv * (10 : Rat) ^ ev))
      | _, _ => none
    | _ => none

/-- Model of Python's builtin float(str): strip surrounding whitespace,
optional sign, then an unsigned float literal; none models a ValueError. -/
def pyFloat (s : String) : Option PyFloat :=
  let cs := s.toList.dropWhile Char.isWhitespace
  let cs := (cs.reverse.dropWhile Char.isWhitespace).reverse
  match cs with
  | '+' :: r => parseUnsignedFloat r
  | '-' :: r => (parseUnsignedFloat r).map negFloat
  | r => parseUnsignedFloat r

/-- Render the fractional digits of r/d (0 ≤ r < d) with the given fuel,
stopping when the remainder is exhausted. -/
def fracDigits : Nat → Nat → Nat → List Char
  | 0, _, _ => []
  | _ + 1, 0, _ => []
  | fuel + 1, r, d =>
    Char.ofNat (48 + (r * 10) / d) :: fracDigits fuel ((r * 10) % d) d

/-- Model of Python's str() on a float: "nan"/"inf"/"-inf" for the special
values, otherwise a decimal rendering that always shows a fractional part
(str(2.0) is "2.0"). -/
def pyFloatStr : PyFloat → String
  | .nan => "nan"
  | .inf => "inf"
  | .ninf => "-inf"
  | .num q =>
    let sign := if q < 0 then "-" else ""
    let n := q.num.natAbs
    let d := q.den
    let frac := fracDigits 30 (n % d) d
    sign ++ toString (n / d) ++ "." ++ (if frac = [] then "0" else String.mk frac)

/-- Model of a Python datetime value (UTC, microseconds always zero in
this system). -/
structure PyDateTime where
  year : Nat
  month : Nat
  day : Nat
  hour : Nat
  minute : Nat
  second : Nat
deriving DecidableEq, Repr

/-- Two-digit zero-padded decimal rendering. -/
def pad2 (n : Nat) : String :=
  if n < 10 then "0" ++ toString n else toString n

/-- Four-digit zero-padded decimal rendering. -/
def pad4 (n : Nat) : String :=
  if n < 10 then "000" ++ toString n
  else if n < 100 then "00" ++ toString n
  else if n < 1000 then "0" ++ toString n
  else toString n

/-- Model of Python's str() on a datetime with zero microseconds:
"YYYY-MM-DD HH:MM:SS", seconds always included. -/
def pyDatetimeStr (t : PyDateTime) : String :=
  pad4 t.year ++ "-" ++ pad2 t.month ++ "-" ++ pad2 t.day ++ " " ++
    pad2 t.hour ++ ":" ++ pad2 t.minute ++ ":" ++ pad2 t.second

/-- Month abbreviations of the fixed calendar format. -/
def monthAbbrevs : List (String × Nat) :=
  [("Jan", 1), ("Feb", 2), ("Mar", 3), ("Apr", 4), ("May", 5), ("Jun", 6),
   ("Jul", 7), ("Aug", 8), ("Sep", 9), ("Oct", 10), ("Nov", 11), ("Dec", 12)]

/-- Numeric value of a nonempty all-digit character list, none otherwise. -/
def charsToNat (cs : List Char) : Option Nat :=
  if cs ≠ [] ∧ cs.all Char.isDigit then some (digitsVal cs) else none

/-- Month number of a three-letter month abbreviation. -/
def monthOfAbbrev (cs : List Char) : Option Nat :=
  (monthAbbrevs.find? (fun p => p.1.toList = cs)).map (·.2)

/-- Modelled from the spec: helpers.cd_to_datetime is not under src/.
Per section 6, the approach timestamp has the fixed textual calendar format
"YYYY-MMM-DD HH:MM" (e.g. "1900-Jan-01 00:30"); parsing it yields a
minute-precision UTC timestamp (seconds zero); none models the ValueError
raised on text that does not match the format. -/
def cd_to_datetime (s : String) : Option PyDateTime :=
  match splitOnChar ' ' s.toList with
  | [datePart, timePart] =>
    match splitOnChar '-' datePart, splitOnChar ':' timePart with
    | [ys, ms, ds], [hs, mins] =>
      match charsToNat ys, monthOfAbbrev ms,
            charsToNat ds, charsToNat hs, charsToNat mins with
      | some y, some mo, some d, some h, some mi =>
        if 1 ≤ d ∧ d ≤ 31 ∧ h ≤ 23 ∧ mi ≤ 59 then
          some ⟨y, mo, d, h, mi, 0⟩
        else none
      | _, _, _, _, _ => none
    | _, _ => none
  | _ => none

/-- Modelled from the spec: helpers.datetime_to_str is not under src/.
Per section 6, formatting a timestamp back to text must reproduce exactly
the reduced precision "YYYY-MM-DD HH:MM", never appending seconds; per
section 3, downstream formatting treats a null timestamp specially, here
as the empty text. -/
def datetime_to_str (t : Option PyDateTime) : String :=
  match t with
  | none => ""
  | some t =>
    pad4 t.year ++ "-" ++ pad2 t.month ++ "-" ++ pad2 t.day ++ " " ++
      pad2 t.hour ++ ":" ++ pad2 t.minute

/-- A near-Earth object as built by NearEarthObject.__init__ in models.py.
The approaches collection holds indices of linked approaches (it is empty
at construction and never read by the serialized outputs). -/
structure NearEarthObject where
  designation : Option String
  name : Option String
  diameter : PyFloat
  hazardous : Bool
  approaches : List Nat
deriving DecidableEq, Repr

/-- The keyword-argument bag accepted by NearEarthObject.__init__; a field
is none when the key is absent or its value is Python None. -/
structure NeoInfo where
  designation : Option String
  name : Option String
  diameter : Option String
  hazardous : Option String
deriving DecidableEq, Repr

/-- The normalization "None if info.get(k) is None or info[k] == '' else
info[k]" applied to the textual fields by both constructors. -/
def normStr (v : Option String) : Option String :=
  match v with
  | none => none
  | some s => if s = "" then none else some s

/-- The normalization "float(nan) if info.get(k) is None or info[k] == ''
else float(info[k])" applied to the numeric fields; the error case models
the ValueError raised by float() on unparseable text. -/
def floatField (v : Option String) : Except String PyFloat :=
  match v with
  | none => .ok .nan
  | some s =>
    if s = "" then .ok .nan
    else
      match pyFloat s with
      | some f => .ok f
      | none => .error ("could not convert string to float: " ++ s)

/-- The normalization "False if info.get(k) is None or info[k] == '' else
info[k] == 'Y'" applied to the hazardous flag. -/
def hazardousField (v : Option String) : Bool :=
  match v with
  | none => false
  | some s => if s = "" then false else s == "Y"

/-- NearEarthObject.__init__ from models.py: normalize designation and
name to None-or-nonempty, diameter to a float (NaN when absent), the
hazardous flag to the comparison with "Y", and start with an empty
approaches collection. Only the float() conversion can raise. -/
def NearEarthObject.init (info : NeoInfo) : Except String NearEarthObject :=
  match floatField info.diameter with
  | .error e => .error e
  | .ok diameter =>
    .ok { designation := normStr info.designation
          name := normStr info.name
          diameter := diameter
          hazardous := hazardousField info.hazardous
          approaches := [] }

/-- A close approach as built by CloseApproach.__init__ in models.py. -/
structure CloseApproach where
  _designation : Option String
  time : Option PyDateTime
  distance : PyFloat
  velocity : PyFloat
  neo : Option NearEarthObject
deriving DecidableEq, Repr

/-- The keyword-argument bag accepted by CloseApproach.__init__. -/
structure ApproachInfo where
  _designation : Option String
  time : Option String
  distance : Option String
  velocity : Option String
deriving DecidableEq, Repr

/-- The time normalization of CloseApproach.__init__: None when absent or
empty, else cd_to_datetime, whose parse failure raises. -/
def timeField (v : Option String) : Except String (Option PyDateTime) :=
  match v with
  | none => .ok none
  | some s =>
    if s = "" then .ok none
    else
      match cd_to_datetime s with
      | some t => .ok (some t)
      | none => .error ("time data " ++ s ++ " does not match format")

/-- CloseApproach.__init__ from models.py: normalize the raw designation
reference to None-or-nonempty, parse the time, convert distance and
velocity with float() (NaN when absent), and start with a None neo
reference. The fields are evaluated in source order. -/
def CloseApproach.init (info : ApproachInfo) : Except String CloseApproach :=
  match timeField info.time with
  | .error e => .error e
  | .ok time =>
    match floatField info.distance with
    | .error e => .error e
    | .ok distance =>
      match floatField info.velocity with
      | .error e => .error e
      | .ok velocity =>
        .ok { _designation := normStr info._designation
              time := time
              distance := distance
              velocity := velocity
              neo := none }

/-- NearEarthObject.fullname from models.py: the designation when the name
is None, otherwise designation + " (" + name + ")"; the error case models
the TypeError Python raises when the designation is None and the name is
not (None + str is unsupported). -/
def NearEarthObject.fullname (neo : NearEarthObject) : Except String (Option String) :=
  match neo.name with
  | none => .ok neo.designation
  | some n =>
    match neo.designation with
    | none => .error "TypeError: unsupported operand types for + (NoneType and str)"
    | some d => .ok (some (d ++ " (" ++ n ++ ")"))

/-- CloseApproach.time_str from models.py: datetime_to_str applied to the
approach time. -/
def CloseApproach.time_str (ca : CloseApproach) : String :=
  datetime_to_str ca.time

/-- Modelled from the spec: the Linker (NEODatabase, not under src/) sets
the approach's neo reference to its owning NEO (section 4.2). -/
def linkNeo (ca : CloseApproach) (neo : NearEarthObject) : CloseApproach :=
  { ca with neo := some neo }

/-- The header row written by write_to_csv. -/
def csvFieldnames : List String :=
  ["datetime_utc", "distance_au", "velocity_km_s", "designation", "name",
   "diameter_km", "potentially_hazardous"]

/-- The per-approach dictionary built inside write_to_csv, with the Python
value each key is assigned: the raw datetime object for datetime_utc, the
raw floats for distance and velocity, the (possibly None) designation,
"name or ''", str(diameter), and the hazardous boolean. -/
structure CsvRecord where
  datetime_utc : Option PyDateTime
  distance_au : PyFloat
  velocity_km_s : PyFloat
  designation : Option String
  name : String
  diameter_km : String
  potentially_hazardous : Bool
deriving DecidableEq, Repr

/-- Python's "x or d" on an optional string: d when x is None or empty
(falsy), x otherwise. -/
def pyOr (v : Option String) (d : String) : String :=
  match v with
  | none => d
  | some s => if s = "" then d else s

/-- The loop body of write_to_csv for one approach; the error case models
the AttributeError raised by result.neo.designation when neo is None. -/
def csvRecord (ca : CloseApproach) : Except String CsvRecord :=
  match ca.neo with
  | none => .error "AttributeError: NoneType has no attribute designation"
  | some neo =>
    .ok { datetime_utc := ca.time
          distance_au := ca.distance
          velocity_km_s := ca.velocity
          designation := neo.designation
          name := pyOr neo.name ""
          diameter_km := pyFloatStr neo.diameter
          potentially_hazardous := neo.hazardous }

/-- How csv.DictWriter stringifies one record: None becomes the empty
cell, a datetime is rendered by str() (with seconds), floats by str(),
booleans as "True"/"False", strings stay as they are. -/
def renderCsvRecord (r : CsvRecord) : List String :=
  [match r.datetime_utc with
   | none => ""
   | some t => pyDatetimeStr t,
   pyFloatStr r.distance_au,
   pyFloatStr r.velocity_km_s,
   (match r.designation with
    | none => ""
    | some d => d),
   r.name,
   r.diameter_km,
   if r.potentially_hazardous then "True" else "False"]

/-- write_to_csv from write.py, modelled as the list of rows written to
the file: the header row, then one rendered record per approach. -/
def write_to_csv (results : List CloseApproach) : Except String (List (List String)) :=
  match results.mapM csvRecord with
  | .error e => .error e
  | .ok recs => .ok (csvFieldnames :: recs.map renderCsvRecord)

/-- The nested neo dictionary built inside write_to_json. -/
structure JsonNeo where
  designation : Option String
  name : String
  diameter_km : PyFloat
  potentially_hazardous : Bool
deriving DecidableEq, Repr

/-- The per-approach dictionary built inside write_to_json: datetime_utc
already formatted by datetime_to_str, raw floats for distance and
velocity, and the nested neo dictionary. -/
structure JsonApproach where
  datetime_utc : String
  distance_au : PyFloat
  velocity_km_s : PyFloat
  neo : JsonNeo
deriving DecidableEq, Repr

/-- The loop body of write_to_json for one approach; the error case models
the AttributeError raised by result.neo.designation when neo is None. -/
def jsonRecord (ca : CloseApproach) : Except String JsonApproach :=
  match ca.neo with
  | none => .error "AttributeError: NoneType has no attribute designation"
  | some neo =>
    .ok { datetime_utc := datetime_to_str ca.time
          distance_au := ca.distance
          velocity_km_s := ca.velocity
          neo := { designation := neo.designation
                   name := pyOr neo.name ""
                   diameter_km := neo.diameter
                   potentially_hazardous := neo.hazardous } }

/-- JSON values as emitted by json.dump (jnum carries a Python float, so
NaN is a number here, as json.dump emits it). -/
inductive JValue where
  | jnull
  | jstr (s : String)
  | jnum (f : PyFloat)
  | jbool (b : Bool)
  | jarr (xs : List JValue)
  | jobj (fields : List (String × JValue))

/-- The JSON value of the nested neo dictionary. -/
def jsonNeoToJValue (n : JsonNeo) : JValue :=
  .jobj [("designation",
          match n.designation with
          | none => .jnull
          | some s => .jstr s),
         ("name", .jstr n.name),
         ("diameter_km", .jnum n.diameter_km),
         ("potentially_hazardous", .jbool n.potentially_hazardous)]

/-- The JSON value of one approach dictionary. -/
def jsonApproachToJValue (a : JsonApproach) : JValue :=
  .jobj [("datetime_utc", .jstr a.datetime_utc),
         ("distance_au", .jnum a.distance_au),
         ("velocity_km_s", .jnum a.velocity_km_s),
         ("neo", jsonNeoToJValue a.neo)]

/-- write_to_json from write.py, modelled as the JSON value dumped to the
file: a list of approach dictionaries. -/
def write_to_json (results : List CloseApproach) : Except String JValue :=
  match results.mapM jsonRecord with
  | .error e => .error e
  | .ok recs => .ok (.jarr (recs.map jsonApproachToJValue))

/-- Field lookup inside a JSON object value. -/
def jvalLookup (v : JValue) (k : String) : Option JValue :=
  match v with
  | .jobj fs => (fs.find? (fun p => p.1 = k)).map (·.2)
  | _ => none

/-- Whether an Except value carries a result (a Python call that returned
rather than raised). -/
def exOk {ε α : Type} (e : Except ε α) : Bool :=
  match e with
  | .ok _ => true
  | .error _ => false

/- Helper lemmas shared by the claim theorems. -/

lemma normStr_ne_some_empty (v : Option String) : normStr v ≠ some "" := by
  cases v with
  | none => simp [normStr]
  | some s =>
    by_cases h : s = "" <;> simp [normStr, h]

lemma floatField_absent {v : Option String} (h : v = none ∨ v = some "") :
    floatField v = .ok .nan := by
  rcases h with h | h <;> simp [floatField, h]

lemma timeField_absent {v : Option String} (h : v = none ∨ v = some "") :
    timeField v = .ok none := by
  rcases h with h | h <;> simp [timeField, h]

lemma normStr_absent {v : Option String} (h : v = none ∨ v = some "") :
    normStr v = none := by
  rcases h with h | h <;> simp [normStr, h]

lemma hazardousField_absent {v : Option String} (h : v = none ∨ v = some "") :
    hazardousField v = false := by
  rcases h with h | h <;> simp [hazardousField, h]

lemma neo_init_fields {info : NeoInfo} {neo : NearEarthObject}
    (h : NearEarthObject.init info = .ok neo) :
    neo.designation = normStr info.designation ∧
    neo.name = normStr info.name ∧
    floatField info.diameter = .ok neo.diameter ∧
    neo.hazardous = hazardousField info.hazardous ∧
    neo.approaches = [] := by
  unfold NearEarthObject.init at h
  cases hf : floatField info.diameter with
  | error e => rw [hf] at h; exact absurd h (by simp)
  | ok f =>
    rw [hf] at h
    simp only [Except.ok.injEq] at h
    subst h
    simp [hf]

lemma approach_init_fields {info : ApproachInfo} {ca : CloseApproach}
    (h : CloseApproach.init info = .ok ca) :
    ca._designation = normStr info._designation ∧
    timeField info.time = .ok ca.time ∧
    floatField info.distance = .ok ca.distance ∧
    floatField info.velocity = .ok ca.velocity ∧
    ca.neo = none := by
  unfold CloseApproach.init at h
  cases ht : timeField info.time with
  | error e => rw [ht] at h; exact absurd h (by simp)
  | ok t =>
    rw [ht] at h
    cases hd : floatField info.distance with
    | error e => rw [hd] at h; exact absurd h (by simp)
    | ok dv =>
      rw [hd] at h
      cases hv : floatField info.velocity with
      | error e => rw [hv] at h; exact absurd h (by simp)
      | ok vv =>
        rw [hv] at h
        simp only [Except.ok.injEq] at h
        subst h
        simp [ht, hd, hv]

/-- C1: the claim says the datetime_utc column of write_to_csv holds the
approach time at the reduced precision "YYYY-MM-DD HH:MM". The code
assigns the raw datetime object (result.time) to that column instead of
datetime_to_str(result.time), so the csv writer stringifies it with
seconds: for the approach parsed from "1900-Jan-01 00:30" the written cell
is "1900-01-01 00:30:00", not the reduced-precision "1900-01-01 00:30"
that datetime_to_str produces and that write_to_json uses. -/
theorem c1_csv_datetime_column_includes_seconds :
    CloseApproach.init ⟨some "1036", some "1900-Jan-01 00:30", none, none⟩ =
      .ok ⟨some "1036", some ⟨1900, 1, 1, 0, 30, 0⟩, .nan, .nan, none⟩ ∧
    NearEarthObject.init ⟨some "1036", some "Ganymed", none, some "Y"⟩ =
      .ok ⟨some "1036", some "Ganymed", .nan, true, []⟩ ∧
    write_to_csv
        [linkNeo ⟨some "1036", some ⟨1900, 1, 1, 0, 30, 0⟩, .nan, .nan, none⟩
          ⟨some "1036", some "Ganymed", .nan, true, []⟩] =
      .ok [csvFieldnames,
           ["1900-01-01 00:30:00", "nan", "nan", "1036", "Ganymed", "nan", "True"]] ∧
    datetime_to_str (some ⟨1900, 1, 1, 0, 30, 0⟩) = "1900-01-01 00:30" ∧
    (("1900-01-01 00:30:00" : String) == "1900-01-01 00:30") = false :=
  ⟨rfl, rfl, rfl, rfl, by decide⟩

/-- C5: parsing "1900-Jan-01 00:30" in the CloseApproach constructor and
formatting the result with time_str yields exactly "1900-01-01 00:30",
with no seconds appended. -/
theorem c5_time_roundtrip_reduced_precision :
    CloseApproach.init ⟨some "1036", some "1900-Jan-01 00:30", none, none⟩ =
      .ok ⟨some "1036", some ⟨1900, 1, 1, 0, 30, 0⟩, .nan, .nan, none⟩ ∧
    CloseApproach.time_str ⟨some "1036", some ⟨1900, 1, 1, 0, 30, 0⟩, .nan, .nan, none⟩ =
      "1900-01-01 00:30" :=
  ⟨rfl, rfl⟩

/-- C8: serializing an empty result sequence yields a header-only row list
from write_to_csv and an empty JSON list from write_to_json. -/
theorem c8_empty_results_serialize_to_empty_body :
    write_to_csv [] = .ok [csvFieldnames] ∧
    write_to_json [] = .ok (.jarr []) :=
  ⟨rfl, rfl⟩

/-- C3: a constructed NearEarthObject is hazardous exactly when the
supplied hazardous value is the literal string "Y"; any other value,
missing or empty included, yields false. -/
theorem c3_hazardous_iff_literal_Y :
    ∀ (info : NeoInfo) (neo : NearEarthObject),
      NearEarthObject.init info = .ok neo →
      (neo.hazardous = true ↔ info.hazardous = some "Y") := by
  intro info neo h
  have hz := (neo_init_fields h).2.2.2.1
  rw [hz]
  cases hv : info.hazardous with
  | none => simp [hazardousField]
  | some s =>
    by_cases hs : s = ""
    · subst hs; simp [hazardousField]
    · simp [hazardousField, hs]

/-- C3 witness: constructing with hazardous "Y" gives a hazardous NEO, via
the claim theorem at that input. -/
theorem c3_hazardous_iff_literal_Y_witness :
    ((⟨some "1036", none, PyFloat.nan, true, []⟩ : NearEarthObject).hazardous = true ↔
      (some "Y" : Option String) = some "Y") :=
  c3_hazardous_iff_literal_Y ⟨some "1036", none, none, some "Y"⟩
    ⟨some "1036", none, PyFloat.nan, true, []⟩ rfl

/-- C4 counterexample: the claim says fullname always equals designation
(name null) or designation ++ " (" ++ name ++ ")" (name non-null), but the
constructor accepts a missing designation, and on such an object with a
non-null name the fullname computation None + " (" raises a TypeError
instead of producing any string. -/
theorem c4_fullname_counterexample :
    NearEarthObject.init ⟨none, some "Ganymed", none, none⟩ =
      .ok ⟨none, some "Ganymed", .nan, false, []⟩ ∧
    NearEarthObject.fullname ⟨none, some "Ganymed", .nan, false, []⟩ =
      .error "TypeError: unsupported operand types for + (NoneType and str)" :=
  ⟨rfl, rfl⟩

/-- C4 (amended): fullname equals the designation when the name is null;
when the name is non-null and the designation is non-null it equals
designation ++ " (" ++ name ++ ")"; when the designation is null and the
name is non-null the computation raises a TypeError; in particular
designation "1036" with name "Ganymed" yields "1036 (Ganymed)". -/
theorem c4_fullname_amended :
    (∀ neo : NearEarthObject, neo.name = none →
      neo.fullname = .ok neo.designation) ∧
    (∀ (neo : NearEarthObject) (d n : String),
      neo.designation = some d → neo.name = some n →
      neo.fullname = .ok (some (d ++ " (" ++ n ++ ")"))) ∧
    (∀ (neo : NearEarthObject) (n : String),
      neo.designation = none → neo.name = some n →
      exOk neo.fullname = false) ∧
    NearEarthObject.fullname ⟨some "1036", some "Ganymed", .nan, false, []⟩ =
      .ok (some "1036 (Ganymed)") := by
  refine ⟨?_, ?_, ?_, rfl⟩
  · intro neo h
    simp [NearEarthObject.fullname, h]
  · intro neo d n hd hn
    simp [NearEarthObject.fullname, hd, hn]
  · intro neo n hd hn
    simp [NearEarthObject.fullname, hd, hn, exOk]

/-- C4 witness: the amended theorem applied to concrete NEOs with and
without a name, and to one with a null designation and a name. -/
theorem c4_fullname_amended_witness :
    NearEarthObject.fullname ⟨some "1036", none, PyFloat.nan, false, []⟩ =
      .ok (some "1036") ∧
    NearEarthObject.fullname ⟨some "1036", some "Ganymed", PyFloat.nan, false, []⟩ =
      .ok (some ("1036" ++ " (" ++ "Ganymed" ++ ")")) ∧
    exOk (NearEarthObject.fullname ⟨none, some "Ganymed", PyFloat.nan, false, []⟩) = false :=
  ⟨c4_fullname_amended.1 ⟨some "1036", none, PyFloat.nan, false, []⟩ rfl,
   c4_fullname_amended.2.1 ⟨some "1036", some "Ganymed", PyFloat.nan, false, []⟩
     "1036" "Ganymed" rfl rfl,
   c4_fullname_amended.2.2.1 ⟨none, some "Ganymed", PyFloat.nan, false, []⟩ "Ganymed" rfl rfl⟩

/-- The "name or ''" expression of write.py agrees with Option.getD on the
normalized name field. -/
lemma pyOr_empty (v : Option String) : pyOr v "" = v.getD "" := by
  cases v with
  | none => rfl
  | some s => by_cases h : s = "" <;> simp [pyOr, h]

lemma floatField_unparseable {s : String} (hne : s ≠ "") (hp : pyFloat s = none) :
    floatField (some s) = .error ("could not convert string to float: " ++ s) := by
  simp [floatField, hne, hp]

/-- C2: both constructors normalize every missing-or-empty-string field to
its sentinel (None for designation, name, time and the raw designation
reference; NaN for diameter, distance and velocity; False for the hazard
flag), and whether a record is returned does not depend on the designation
being present. -/
theorem c2_constructors_normalize_missing_fields :
    (∀ (info : NeoInfo) (neo : NearEarthObject),
      NearEarthObject.init info = .ok neo →
      ((info.designation = none ∨ info.designation = some "") → neo.designation = none) ∧
      ((info.name = none ∨ info.name = some "") → neo.name = none) ∧
      ((info.diameter = none ∨ info.diameter = some "") → neo.diameter = .nan) ∧
      ((info.hazardous = none ∨ info.hazardous = some "") → neo.hazardous = false)) ∧
    (∀ (info : ApproachInfo) (ca : CloseApproach),
      CloseApproach.init info = .ok ca →
      ((info._designation = none ∨ info._designation = some "") → ca._designation = none) ∧
      ((info.time = none ∨ info.time = some "") → ca.time = none) ∧
      ((info.distance = none ∨ info.distance = some "") → ca.distance = .nan) ∧
      ((info.velocity = none ∨ info.velocity = some "") → ca.velocity = .nan)) ∧
    (∀ info : NeoInfo,
      exOk (NearEarthObject.init { info with designation := none }) =
        exOk (NearEarthObject.init info)) ∧
    (∀ info : ApproachInfo,
      exOk (CloseApproach.init { info with _designation := none }) =
        exOk (CloseApproach.init info)) := by
  refine ⟨?_, ?_, ?_, ?_⟩
  · intro info neo h
    obtain ⟨hd, hn, hf, hz, -⟩ := neo_init_fields h
    refine ⟨fun ha => ?_, fun ha => ?_, fun ha => ?_, fun ha => ?_⟩
    · rw [hd, normStr_absent ha]
    · rw [hn, normStr_absent ha]
    · have h2 := (floatField_absent ha).symm.trans hf
      simp only [Except.ok.injEq] at h2
      exact h2.symm
    · rw [hz, hazardousField_absent ha]
  · intro info ca h
    obtain ⟨hd, ht, hdist, hvel, -⟩ := approach_init_fields h
    refine ⟨fun ha => ?_, fun ha => ?_, fun ha => ?_, fun ha => ?_⟩
    · rw [hd, normStr_absent ha]
    · have h2 := (timeField_absent ha).symm.trans ht
      simp only [Except.ok.injEq] at h2
      exact h2.symm
    · have h2 := (floatField_absent ha).symm.trans hdist
      simp only [Except.ok.injEq] at h2
      exact h2.symm
    · have h2 := (floatField_absent ha).symm.trans hvel
      simp only [Except.ok.injEq] at h2
      exact h2.symm
  · intro info
    cases hf : floatField info.diameter <;>
      simp [NearEarthObject.init, hf, exOk]
  · intro info
    cases ht : timeField info.time <;>
      cases hd : floatField info.distance <;>
      cases hv : floatField info.velocity <;>
      simp [CloseApproach.init, ht, hd, hv, exOk]

/-- C2 witness: the claim theorem applied to concrete constructor inputs
with missing and empty fields, and to a concrete designation-stripping
instance. -/
theorem c2_constructors_normalize_missing_fields_witness :
    (⟨none, none, PyFloat.nan, false, []⟩ : NearEarthObject).designation = none ∧
    (⟨none, none, PyFloat.nan, false, []⟩ : NearEarthObject).name = none ∧
    (⟨none, none, PyFloat.nan, false, []⟩ : NearEarthObject).diameter = PyFloat.nan ∧
    (⟨none, none, PyFloat.nan, false, []⟩ : NearEarthObject).hazardous = false ∧
    (⟨none, none, PyFloat.nan, PyFloat.nan, none⟩ : CloseApproach)._designation = none ∧
    (⟨none, none, PyFloat.nan, PyFloat.nan, none⟩ : CloseApproach).time = none ∧
    (⟨none, none, PyFloat.nan, PyFloat.nan, none⟩ : CloseApproach).distance = PyFloat.nan ∧
    (⟨none, none, PyFloat.nan, PyFloat.nan, none⟩ : CloseApproach).velocity = PyFloat.nan ∧
    exOk (NearEarthObject.init ⟨none, some "Ganymed", none, some "Y"⟩) =
      exOk (NearEarthObject.init ⟨some "1036", some "Ganymed", none, some "Y"⟩) := by
  have h1 := c2_constructors_normalize_missing_fields.1
    ⟨none, some "", some "", none⟩ ⟨none, none, PyFloat.nan, false, []⟩ rfl
  have h2 := c2_constructors_normalize_missing_fields.2.1
    ⟨some "", some "", none, some ""⟩ ⟨none, none, PyFloat.nan, PyFloat.nan, none⟩ rfl
  exact ⟨h1.1 (Or.inl rfl), h1.2.1 (Or.inr rfl), h1.2.2.1 (Or.inr rfl),
         h1.2.2.2 (Or.inl rfl), h2.1 (Or.inr rfl), h2.2.1 (Or.inr rfl),
         h2.2.2.1 (Or.inl rfl), h2.2.2.2 (Or.inr rfl),
         c2_constructors_normalize_missing_fields.2.2.1
           ⟨some "1036", some "Ganymed", none, some "Y"⟩⟩

/-- C6: in both write_to_csv's row and write_to_json's nested neo object,
the serialized name is the empty string when the linked NEO's name is None
and the name itself otherwise; in the JSON value it is a string field. -/
theorem c6_serialized_name_empty_when_null :
    ∀ (ca : CloseApproach) (neo : NearEarthObject), ca.neo = some neo →
      (csvRecord ca).map CsvRecord.name = .ok (neo.name.getD "") ∧
      (jsonRecord ca).map (fun r => r.neo.name) = .ok (neo.name.getD "") ∧
      (jsonRecord ca).map (fun r => jvalLookup (jsonNeoToJValue r.neo) "name") =
        .ok (some (.jstr (neo.name.getD ""))) := by
  intro ca neo h
  refine ⟨?_, ?_, ?_⟩ <;>
    simp [csvRecord, jsonRecord, h, Except.map, jsonNeoToJValue, jvalLookup,
          List.find?, pyOr_empty]

/-- C6 witness: the claim theorem applied to a concrete linked approach
whose NEO has no name and to one whose NEO is named. -/
theorem c6_serialized_name_empty_when_null_witness :
    (csvRecord ⟨some "X", none, PyFloat.nan, PyFloat.nan,
        some ⟨some "X", none, PyFloat.nan, false, []⟩⟩).map CsvRecord.name = .ok "" ∧
    (jsonRecord ⟨some "X", none, PyFloat.nan, PyFloat.nan,
        some ⟨some "X", none, PyFloat.nan, false, []⟩⟩).map (fun r => r.neo.name) = .ok "" ∧
    (csvRecord ⟨some "1036", none, PyFloat.nan, PyFloat.nan,
        some ⟨some "1036", some "Ganymed", PyFloat.nan, false, []⟩⟩).map CsvRecord.name =
      .ok "Ganymed" := by
  have h1 := c6_serialized_name_empty_when_null
    ⟨some "X", none, PyFloat.nan, PyFloat.nan,
      some ⟨some "X", none, PyFloat.nan, false, []⟩⟩
    ⟨some "X", none, PyFloat.nan, false, []⟩ rfl
  have h2 := c6_serialized_name_empty_when_null
    ⟨some "1036", none, PyFloat.nan, PyFloat.nan,
      some ⟨some "1036", some "Ganymed", PyFloat.nan, false, []⟩⟩
    ⟨some "1036", some "Ganymed", PyFloat.nan, false, []⟩ rfl
  exact ⟨h1.1, h1.2.1, h2.1⟩

/-- C7: the CSV diameter_km cell is the str() rendering of the linked
NEO's diameter ("nan" when the diameter is unknown), while write_to_json's
nested diameter_km is the float value itself, serialized as a JSON number
and not as a string. -/
theorem c7_serialized_diameter_forms :
    ∀ (ca : CloseApproach) (neo : NearEarthObject), ca.neo = some neo →
      (csvRecord ca).map CsvRecord.diameter_km = .ok (pyFloatStr neo.diameter) ∧
      (neo.diameter = .nan → (csvRecord ca).map CsvRecord.diameter_km = .ok "nan") ∧
      (jsonRecord ca).map (fun r => r.neo.diameter_km) = .ok neo.diameter ∧
      (jsonRecord ca).map (fun r => jvalLookup (jsonNeoToJValue r.neo) "diameter_km") =
        .ok (some (.jnum neo.diameter)) := by
  intro ca neo h
  refine ⟨?_, fun hnan => ?_, ?_, ?_⟩ <;>
    simp [csvRecord, jsonRecord, h, Except.map, jsonNeoToJValue, jvalLookup,
          List.find?]
  rw [hnan, pyFloatStr]

/-- C7 witness: the claim theorem applied to a concrete linked approach
whose NEO has an unknown diameter. -/
theorem c7_serialized_diameter_forms_witness :
    (csvRecord ⟨some "X", none, PyFloat.nan, PyFloat.nan,
        some ⟨some "X", none, PyFloat.nan, false, []⟩⟩).map CsvRecord.diameter_km =
      .ok "nan" ∧
    (jsonRecord ⟨some "X", none, PyFloat.nan, PyFloat.nan,
        some ⟨some "X", none, PyFloat.nan, false, []⟩⟩).map (fun r => r.neo.diameter_km) =
      .ok PyFloat.nan := by
  have h := c7_serialized_diameter_forms
    ⟨some "X", none, PyFloat.nan, PyFloat.nan,
      some ⟨some "X", none, PyFloat.nan, false, []⟩⟩
    ⟨some "X", none, PyFloat.nan, false, []⟩ rfl
  exact ⟨h.2.1 rfl, h.2.2.1⟩

/-- C9: every record returned by a constructor has its textual identity
fields either None or a non-empty string (never the empty string), an
empty approaches collection for an NEO, and a None neo reference for a
close approach. -/
theorem c9_constructed_records_invariants :
    (∀ (info : NeoInfo) (neo : NearEarthObject),
      NearEarthObject.init info = .ok neo →
      (neo.designation == some "") = false ∧
      (neo.name == some "") = false ∧
      neo.approaches = []) ∧
    (∀ (info : ApproachInfo) (ca : CloseApproach),
      CloseApproach.init info = .ok ca →
      (ca._designation == some "") = false ∧
      ca.neo = none) := by
  constructor
  · intro info neo h
    obtain ⟨hd, hn, -, -, happ⟩ := neo_init_fields h
    refine ⟨?_, ?_, happ⟩
    · rw [hd]
      simp only [beq_eq_false_iff_ne]
      exact normStr_ne_some_empty _
    · rw [hn]
      simp only [beq_eq_false_iff_ne]
      exact normStr_ne_some_empty _
  · intro info ca h
    obtain ⟨hd, -, -, -, hneo⟩ := approach_init_fields h
    refine ⟨?_, hneo⟩
    rw [hd]
    simp only [beq_eq_false_iff_ne]
    exact normStr_ne_some_empty _

/-- C9 witness: the claim theorem applied to concrete constructor inputs,
one with an empty designation string and one with a non-empty one. -/
theorem c9_constructed_records_invariants_witness :
    ((⟨some "1036", none, PyFloat.nan, false, []⟩ : NearEarthObject).designation ==
      some "") = false ∧
    ((⟨some "1036", none, PyFloat.nan, false, []⟩ : NearEarthObject).name ==
      some "") = false ∧
    (⟨some "1036", none, PyFloat.nan, false, []⟩ : NearEarthObject).approaches = [] ∧
    ((⟨none, none, PyFloat.nan, PyFloat.nan, none⟩ : CloseApproach)._designation ==
      some "") = false ∧
    (⟨none, none, PyFloat.nan, PyFloat.nan, none⟩ : CloseApproach).neo = none := by
  have h1 := c9_constructed_records_invariants.1
    ⟨some "1036", none, none, none⟩ ⟨some "1036", none, PyFloat.nan, false, []⟩ rfl
  have h2 := c9_constructed_records_invariants.2
    ⟨some "", none, none, none⟩ ⟨none, none, PyFloat.nan, PyFloat.nan, none⟩ rfl
  exact ⟨h1.1, h1.2.1, h1.2.2, h2.1, h2.2⟩

/-- C10: when the diameter, distance or velocity input is a non-empty
string that float() cannot parse, the constructor raises (returns no
record) instead of substituting the NaN sentinel. -/
theorem c10_unparseable_numeric_raises :
    (∀ (info : NeoInfo) (s : String),
      info.diameter = some s → s ≠ "" → pyFloat s = none →
      exOk (NearEarthObject.init info) = false) ∧
    (∀ (info : ApproachInfo) (s : String),
      info.distance = some s → s ≠ "" → pyFloat s = none →
      exOk (CloseApproach.init info) = false) ∧
    (∀ (info : ApproachInfo) (s : String),
      info.velocity = some s → s ≠ "" → pyFloat s = none →
      exOk (CloseApproach.init info) = false) := by
  refine ⟨?_, ?_, ?_⟩
  · intro info s hs hne hp
    simp [NearEarthObject.init, hs, floatField_unparseable hne hp, exOk]
  · intro info s hs hne hp
    cases ht : timeField info.time <;>
      simp [CloseApproach.init, ht, hs, floatField_unparseable hne hp, exOk]
  · intro info s hs hne hp
    cases ht : timeField info.time <;>
      cases hd : floatField info.distance <;>
      simp [CloseApproach.init, ht, hd, hs, floatField_unparseable hne hp, exOk]

/-- C10 witness: the claim theorem applied to constructor inputs carrying
the unparseable numeric text "junk". -/
theorem c10_unparseable_numeric_raises_witness :
    exOk (NearEarthObject.init ⟨some "1036", none, some "junk", none⟩) = false ∧
    exOk (CloseApproach.init ⟨some "1036", none, some "junk", none⟩) = false ∧
    exOk (CloseApproach.init ⟨some "1036", none, none, some "junk"⟩) = false :=
  ⟨c10_unparseable_numeric_raises.1 ⟨some "1036", none, some "junk", none⟩ "junk"
     rfl (by decide) rfl,
   c10_unparseable_numeric_raises.2.1 ⟨some "1036", none, some "junk", none⟩ "junk"
     rfl (by decide) rfl,
   c10_unparseable_numeric_raises.2.2 ⟨some "1036", none, none, some "junk"⟩ "junk"
     rfl (by decide) rfl⟩
